import Mathlib

/-!
Shallow embedding of the Idara-Wallet authentication core.

The definitions below are translated from the TypeScript sources of the
repository:
  * `server/src/models/user.ts`  (the `UserModel` class: users, OTP records,
    WebAuthn credentials; in-memory `Map`s)
  * `server/src/utils/otp.ts`    (rate limiting, recipient validation,
    `createAndSendOtp`, the utility-level `verifyOtp`)
  * `server/src/routes/auth.ts`  (the `POST /verify-otp` handler)
  * `server/src/routes/webauthn.ts` (the `POST /verify-registration` and
    `POST /verify-authentication` handlers, and the WebAuthn session map)

Conventions of the embedding:
  * JS `Date` values are modelled as `Int` milliseconds since the epoch;
    each function that calls `new Date()` takes the current time `now : Int`
    as an explicit argument.
  * A JS `Map<string, T>` is modelled as an insertion-ordered association
    list `SMap T`; `set` replaces in place, `delete` removes the entry,
    iteration (`forEach`, `values()`) follows list order, exactly as JS maps.
  * Randomly generated values (UUIDs, OTP codes, WebAuthn challenges) are
    supplied by the caller as explicit arguments.
  * `throw new Error(msg)` is modelled as `Except.error msg`; functions that
    both mutate state and may throw return `Except String α × ServerState`,
    carrying the state at the moment of the throw.
  * The external collaborators (SendGrid/Twilio delivery, the
    `@simplewebauthn/server` verifier, JWT signing, DID generation) are
    modelled as opaque inputs/outputs: delivery always reaches the console
    fallback (as the control flow of `createAndSendOtp` guarantees), the
    WebAuthn verifier result is an explicit argument, and tokens/DIDs do not
    affect any state inspected by a claim.
-/

/-- Insertion-ordered string-keyed map, mirroring a JS `Map<string, α>`. -/
abbrev SMap (α : Type) : Type := List (String × α)

/-- Model of `Map.get`: first (and in a real JS map, only) entry with the key. -/
def SMap.get {α : Type} : SMap α → String → Option α
  | [], _ => none
  | (k, v) :: rest, key => if k = key then some v else SMap.get rest key

/-- Model of `Map.set`: replace the entry in place if present, else append. -/
def SMap.set {α : Type} : SMap α → String → α → SMap α
  | [], key, v => [(key, v)]
  | (k, w) :: rest, key, v =>
    if k = key then (key, v) :: rest else (k, w) :: SMap.set rest key v

/-- Model of `Map.delete`: remove the entry with the key. -/
def SMap.del {α : Type} : SMap α → String → SMap α
  | [], _ => []
  | (k, w) :: rest, key => if k = key then rest else (k, w) :: SMap.del rest key

/-- OTP lifecycle status (`OtpStatus` in `types/index.ts`). -/
inductive OtpStatus : Type
  | pending
  | verified
  | expired
  | invalid
  deriving DecidableEq

/-- OTP delivery channel (`OtpDeliveryMethod` in `types/index.ts`). -/
inductive OtpDeliveryMethod : Type
  | email
  | sms
  deriving DecidableEq

/-- Authentication methods of an account (`AuthMethod` in `types/index.ts`). -/
inductive AuthMethod : Type
  | email
  | phone
  | webauthn
  deriving DecidableEq

/-- An OTP challenge record (`OtpRecord` in `types/index.ts`). -/
structure OtpRecord : Type where
  id : String
  userId : Option String
  recipient : String
  code : String
  method : OtpDeliveryMethod
  status : OtpStatus
  attempts : Nat
  maxAttempts : Nat
  createdAt : Int
  expiresAt : Int
  verifiedAt : Option Int
  deriving DecidableEq

/-- A user account (`User` in `types/index.ts`, the fields the auth core touches). -/
structure User : Type where
  id : String
  name : String
  email : Option String
  phone : Option String
  did : Option String
  authMethods : List AuthMethod
  isEmailVerified : Bool
  isPhoneVerified : Bool
  lastLogin : Option Int
  createdAt : Int
  updatedAt : Int
  deriving DecidableEq

/-- A stored WebAuthn credential (`WebAuthnCredential` in `types/index.ts`). -/
structure WebAuthnCredential : Type where
  id : String
  userId : String
  credentialId : String
  publicKey : String
  counter : Nat
  transports : List String
  deviceType : String
  createdAt : Int
  lastUsed : Option Int
  deriving DecidableEq

/-- A WebAuthn ceremony session (`WebAuthnSession` in `routes/webauthn.ts`). -/
structure WebAuthnSession : Type where
  challenge : String
  userId : Option String
  email : Option String
  phone : Option String
  expires : Int
  userVerification : String
  deriving DecidableEq

/-- Per-recipient rate limit window (`RateLimitRecord` in `utils/otp.ts`). -/
structure RateLimitRecord : Type where
  count : Nat
  firstAttempt : Int
  lastAttempt : Int
  deriving DecidableEq

/-- The in-memory server state: the `UserModel` maps, the rate-limit cache of
`utils/otp.ts` and the WebAuthn session map of `routes/webauthn.ts`. -/
structure ServerState : Type where
  rateLimitCache : SMap RateLimitRecord
  otpRecords : SMap OtpRecord
  users : SMap User
  emailIndex : SMap String
  phoneIndex : SMap String
  webauthnCredentials : SMap WebAuthnCredential
  webauthnCredentialsByUser : SMap (List String)
  webAuthnSessions : SMap WebAuthnSession
  deriving DecidableEq

/-- A fresh server (all in-memory maps empty). -/
def ServerState.empty : ServerState :=
  { rateLimitCache := []
    otpRecords := []
    users := []
    emailIndex := []
    phoneIndex := []
    webauthnCredentials := []
    webauthnCredentialsByUser := []
    webAuthnSessions := [] }

namespace UserModel

/-- Model of `UserModel.getUserById`. -/
def getUserById (st : ServerState) (id : String) : Option User :=
  SMap.get st.users id

/-- Model of `UserModel.getUserByEmail`: resolve through the lowercased email index. -/
def getUserByEmail (st : ServerState) (email : String) : Option User :=
  match SMap.get st.emailIndex email.toLower with
  | none => none
  | some userId => SMap.get st.users userId

/-- Model of `UserModel.getUserByPhone`: resolve through the phone index. -/
def getUserByPhone (st : ServerState) (phone : String) : Option User :=
  match SMap.get st.phoneIndex phone with
  | none => none
  | some userId => SMap.get st.users userId

/-- Model of `UserModel.createUser`: validates the profile, rejects duplicate
email/phone, then stores the user and updates the indexes.  The fresh UUID is
supplied as `newUserId`. -/
def createUser (st : ServerState) (name : String) (email phone : Option String)
    (authMethod : AuthMethod) (newUserId : String) (now : Int) :
    Except String (User × ServerState) :=
  if name = "" then
    Except.error "Name is required"
  else if email = none ∧ phone = none then
    Except.error "Either email or phone is required"
  else if (match email with
           | some e => (SMap.get st.emailIndex e.toLower).isSome
           | none => false) then
    Except.error "User with this email already exists"
  else if (match phone with
           | some p => (SMap.get st.phoneIndex p).isSome
           | none => false) then
    Except.error "User with this phone already exists"
  else
    let user : User :=
      { id := newUserId
        name := name
        email := email
        phone := phone
        did := none
        authMethods := [authMethod]
        isEmailVerified := false
        isPhoneVerified := false
        lastLogin := none
        createdAt := now
        updatedAt := now }
    let st1 := { st with users := SMap.set st.users newUserId user }
    let st2 := match email with
      | some e => { st1 with emailIndex := SMap.set st1.emailIndex e.toLower newUserId }
      | none => st1
    let st3 := match phone with
      | some p => { st2 with phoneIndex := SMap.set st2.phoneIndex p newUserId }
      | none => st2
    Except.ok (user, st3)

/-- Model of `UserModel.verifyEmail`: mark the email as verified. -/
def verifyEmail (st : ServerState) (userId : String) (now : Int) : ServerState :=
  match SMap.get st.users userId with
  | none => st
  | some user =>
    { st with users := SMap.set st.users userId
                  ({ user with isEmailVerified := true, updatedAt := now }) }

/-- Model of `UserModel.verifyPhone`: mark the phone as verified. -/
def verifyPhone (st : ServerState) (userId : String) (now : Int) : ServerState :=
  match SMap.get st.users userId with
  | none => st
  | some user =>
    { st with users := SMap.set st.users userId
                  ({ user with isPhoneVerified := true, updatedAt := now }) }

/-- Model of `UserModel.updateLastLogin`. -/
def updateLastLogin (st : ServerState) (userId : String) (now : Int) : ServerState :=
  match SMap.get st.users userId with
  | none => st
  | some user =>
    { st with users := SMap.set st.users userId
                  ({ user with lastLogin := some now, updatedAt := now }) }

/-- Model of `UserModel.addAuthMethod`: append the method if absent. -/
def addAuthMethod (st : ServerState) (userId : String) (method : AuthMethod)
    (now : Int) : ServerState :=
  match SMap.get st.users userId with
  | none => st
  | some user =>
    if user.authMethods.contains method then st
    else
      { st with users := SMap.set st.users userId
                    ({ user with authMethods := user.authMethods ++ [method], updatedAt := now }) }

/-- Model of `UserModel.createOtp`: a fresh pending record with a 10-minute expiry and
`maxAttempts = 3`.  The generated UUID is supplied as `newId`. -/
def createOtp (st : ServerState) (recipient : String) (method : OtpDeliveryMethod)
    (code : String) (userId : Option String) (newId : String) (now : Int) :
    OtpRecord × ServerState :=
  let otp : OtpRecord :=
    { id := newId
      userId := userId
      recipient := recipient
      code := code
      method := method
      status := OtpStatus.pending
      attempts := 0
      maxAttempts := 3
      createdAt := now
      expiresAt := now + 10 * 60 * 1000
      verifiedAt := none }
  (otp, { st with otpRecords := SMap.set st.otpRecords newId otp })

/-- Model of `UserModel.getOtpById`. -/
def getOtpById (st : ServerState) (id : String) : Option OtpRecord :=
  SMap.get st.otpRecords id

/-- Model of `UserModel.verifyOtp` (the model layer): persists the expired status when
past expiry, returns the record untouched when attempts are exhausted, and
otherwise increments `attempts` and stamps the per-attempt outcome
(`verified` or `invalid`) as the stored status. -/
def verifyOtp (st : ServerState) (id code : String) (now : Int) :
    Option OtpRecord × ServerState :=
  match SMap.get st.otpRecords id with
  | none => (none, st)
  | some otp =>
    if now > otp.expiresAt then
      let expiredOtp := { otp with status := OtpStatus.expired }
      (some expiredOtp, { st with otpRecords := SMap.set st.otpRecords id expiredOtp })
    else if otp.attempts ≥ otp.maxAttempts then
      (some otp, st)
    else
      let updated :=
        if code = otp.code then
          { otp with
              attempts := otp.attempts + 1
              status := OtpStatus.verified
              verifiedAt := some now }
        else
          { otp with attempts := otp.attempts + 1, status := OtpStatus.invalid }
      (some updated, { st with otpRecords := SMap.set st.otpRecords id updated })

/-- Model of `UserModel.invalidateOtps`: every pending record of the recipient is
rewritten with status `invalid` (a `forEach` + `set` over the map). -/
def invalidateOtps (st : ServerState) (recipient : String) : ServerState :=
  { st with otpRecords := st.otpRecords.map (fun p =>
      if p.2.recipient = recipient ∧ p.2.status = OtpStatus.pending then
        (p.1, { p.2 with status := OtpStatus.invalid })
      else p) }

/-- Model of `UserModel.storeWebAuthnCredential`: store the credential under a fresh
UUID, index it by user, and add `webauthn` to the user's auth methods. -/
def storeWebAuthnCredential (st : ServerState) (userId credentialId publicKey : String)
    (counter : Nat) (transports : List String) (deviceType : String)
    (newId : String) (now : Int) : WebAuthnCredential × ServerState :=
  let cred : WebAuthnCredential :=
    { id := newId
      userId := userId
      credentialId := credentialId
      publicKey := publicKey
      counter := counter
      transports := transports
      deviceType := deviceType
      createdAt := now
      lastUsed := none }
  let st1 := { st with webauthnCredentials := SMap.set st.webauthnCredentials newId cred }
  let userCreds := match SMap.get st1.webauthnCredentialsByUser userId with
    | none => []
    | some l => l
  let userCreds2 := if userCreds.contains newId then userCreds else userCreds ++ [newId]
  let st2 := { st1 with webauthnCredentialsByUser :=
                  SMap.set st1.webauthnCredentialsByUser userId userCreds2 }
  (cred, addAuthMethod st2 userId AuthMethod.webauthn now)

/-- Model of `UserModel.getWebAuthnCredentialByCredentialId`: linear scan over the map
values in insertion order. -/
def getWebAuthnCredentialByCredentialId (st : ServerState) (credentialId : String) :
    Option WebAuthnCredential :=
  (st.webauthnCredentials.map Prod.snd).find? (fun c => c.credentialId == credentialId)

/-- Model of `UserModel.updateWebAuthnCredentialCounter`: overwrite the stored counter
with the supplied value and stamp `lastUsed`. -/
def updateWebAuthnCredentialCounter (st : ServerState) (id : String) (counter : Nat)
    (now : Int) : Option WebAuthnCredential × ServerState :=
  match SMap.get st.webauthnCredentials id with
  | none => (none, st)
  | some credential =>
    let updated := { credential with counter := counter, lastUsed := some now }
    (some updated,
      { st with webauthnCredentials := SMap.set st.webauthnCredentials id updated })

end UserModel

namespace OtpUtils

/-- Model of `MAX_OTP_ATTEMPTS` in `utils/otp.ts`. -/
def MAX_OTP_ATTEMPTS : Nat := 3

/-- JS regex `\s` membership for the characters relevant here (ASCII
whitespace plus NBSP and BOM). -/
def isJsSpace (c : Char) : Bool :=
  c.toNat = 32 || c.toNat = 9 || c.toNat = 10 || c.toNat = 11 ||
  c.toNat = 12 || c.toNat = 13 || c.toNat = 160 || c.toNat = 65279

/-- A character admissible in any segment of the email regex: `[^\s@]`. -/
def emailSegChar (c : Char) : Bool :=
  !(isJsSpace c) && c ≠ '@'

/-- Split a character list at the first occurrence of `c`. -/
def splitAtFirst (c : Char) : List Char → Option (List Char × List Char)
  | [] => none
  | x :: xs =>
    if x = c then some ([], xs)
    else match splitAtFirst c xs with
      | none => none
      | some (a, b) => some (x :: a, b)

/-- Model of `isValidEmail` in `utils/otp.ts`: the regex `^[^\s@]+@[^\s@]+\.[^\s@]+$`.
The regex matches exactly when the string splits at its (necessarily unique)
`@` into a nonempty space-free local part and a space-free domain containing
a `.` that is neither its first nor its last character. -/
def isValidEmail (s : String) : Bool :=
  match splitAtFirst '@' s.data with
  | none => false
  | some (localPart, domain) =>
    !localPart.isEmpty && localPart.all emailSegChar &&
    domain.all emailSegChar && ((domain.drop 1).dropLast).contains '.'

/-- Model of `isValidPhone` in `utils/otp.ts`: the E.164 regex `^\+[1-9]\d{1,14}$`. -/
def isValidPhone (s : String) : Bool :=
  match s.data with
  | '+' :: d :: rest =>
    (49 ≤ d.toNat && d.toNat ≤ 57) &&
    rest.all (fun c => 48 ≤ c.toNat && c.toNat ≤ 57) &&
    (1 ≤ rest.length && rest.length ≤ 14)
  | _ => false

/-- Model of `isRateLimited` in `utils/otp.ts`.  Returns the decision together with the
(possibly mutated) cache: a window whose first attempt is more than an hour
old is deleted and the recipient is allowed; otherwise the recipient is
limited exactly when the window already counts 5 or more attempts. -/
def isRateLimited (cache : SMap RateLimitRecord) (recipient : String) (now : Int) :
    Bool × SMap RateLimitRecord :=
  match SMap.get cache recipient with
  | none => (false, cache)
  | some record =>
    let hourAgo := now - 60 * 60 * 1000
    if record.firstAttempt < hourAgo then
      (false, SMap.del cache recipient)
    else
      (decide (record.count ≥ 5), cache)

/-- Model of `updateRateLimit` in `utils/otp.ts`: open a window with count 1 or bump
the existing count and last-attempt stamp. -/
def updateRateLimit (cache : SMap RateLimitRecord) (recipient : String) (now : Int) :
    SMap RateLimitRecord :=
  match SMap.get cache recipient with
  | none =>
    SMap.set cache recipient { count := 1, firstAttempt := now, lastAttempt := now }
  | some record =>
    SMap.set cache recipient
      { record with count := record.count + 1, lastAttempt := now }

/-- Model of `createAndSendOtp` in `utils/otp.ts`: validate the recipient format for
its channel, check the rate limit, invalidate all pending OTPs of the
recipient, create the new record, and record the attempt in the rate-limit
window.  Delivery always succeeds (the console fallback makes `sent` true on
every control path), so the final delivery-failure throw is unreachable and
is not modelled.  The generated code and UUID are the `otpCode`/`newId`
arguments. -/
def createAndSendOtp (st : ServerState) (recipient : String)
    (method : OtpDeliveryMethod) (userId : Option String)
    (otpCode : String) (newId : String) (now : Int) :
    Except String OtpRecord × ServerState :=
  if method = OtpDeliveryMethod.email ∧ isValidEmail recipient = false then
    (Except.error "Invalid email format", st)
  else if method = OtpDeliveryMethod.sms ∧ isValidPhone recipient = false then
    (Except.error "Invalid phone number format", st)
  else
    let rl := isRateLimited st.rateLimitCache recipient now
    let st1 := { st with rateLimitCache := rl.2 }
    if rl.1 then
      (Except.error "Rate limit exceeded. Please try again later.", st1)
    else
      let st2 := UserModel.invalidateOtps st1 recipient
      let created := UserModel.createOtp st2 recipient method otpCode userId newId now
      let st3 := { created.2 with
                     rateLimitCache := updateRateLimit created.2.rateLimitCache recipient now }
      (Except.ok created.1, st3)

/-- Model of `verifyOtp` in `utils/otp.ts` (the utility layer wrapping the model):
throws on an unknown id, returns a non-persisted copy with status `expired`
when past expiry, throws when the attempt limit is already reached, and
otherwise delegates to `UserModel.verifyOtp`. -/
def verifyOtp (st : ServerState) (otpId code : String) (now : Int) :
    Except String OtpRecord × ServerState :=
  match UserModel.getOtpById st otpId with
  | none => (Except.error "Invalid OTP ID", st)
  | some otpRecord =>
    if now > otpRecord.expiresAt then
      (Except.ok { otpRecord with status := OtpStatus.expired }, st)
    else if otpRecord.attempts ≥ MAX_OTP_ATTEMPTS then
      (Except.error "Maximum verification attempts reached", st)
    else
      match UserModel.verifyOtp st otpId code now with
      | (none, st2) => (Except.error "Failed to verify OTP", st2)
      | (some verifiedOtp, st2) => (Except.ok verifiedOtp, st2)

end OtpUtils

/-- The transport-layer JSON response, reduced to the fields the claims
inspect: HTTP status, `error` code, `message`, the `success` flag, and the
optional `attemptsLeft` / `fallbackToOtp` extras. -/
structure ApiResponse : Type where
  status : Nat
  error : String
  message : String
  success : Bool
  attemptsLeft : Option Nat
  fallbackToOtp : Bool
  deriving DecidableEq

/-- An error response with the given HTTP status, error code and message. -/
def mkResp (status : Nat) (error message : String) : ApiResponse :=
  { status := status
    error := error
    message := message
    success := false
    attemptsLeft := none
    fallbackToOtp := false }

namespace AuthRoutes

/-- The tail of the `POST /api/auth/verify-otp` handler after the OTP has been
checked and found `verified` (lines 193-293 of `routes/auth.ts`): resolve or
create the account, stamp the last login, and answer 200.  JWT issuance is
external and carries no state the claims inspect; DID generation is external
and best-effort (its failure is swallowed), modelled as the swallowed-failure
branch. -/
def verifyOtpSuccess (st : ServerState) (otpRecord : OtpRecord)
    (registerUser : Bool) (name : Option String) (newUserId : String)
    (now : Int) : ApiResponse × ServerState :=
  let authMethod := match otpRecord.method with
    | OtpDeliveryMethod.email => AuthMethod.email
    | OtpDeliveryMethod.sms => AuthMethod.phone
  let finishLogin := fun (st' : ServerState) (user : User) (isNewUser : Bool) =>
    let st'' := UserModel.updateLastLogin st' user.id now
    ({ mkResp 200 "" "Authentication successful" with success := true }, st'', isNewUser)
  let outcome : Except (ApiResponse × ServerState) (ApiResponse × ServerState × Bool) :=
    match otpRecord.userId with
    | some uid =>
      match UserModel.getUserById st uid with
      | none => Except.error (mkResp 404 "Not Found" "User not found", st)
      | some user => Except.ok (finishLogin st user false)
    | none =>
      let existing := match otpRecord.method with
        | OtpDeliveryMethod.email => UserModel.getUserByEmail st otpRecord.recipient
        | OtpDeliveryMethod.sms => UserModel.getUserByPhone st otpRecord.recipient
      match existing with
      | some user => Except.ok (finishLogin st user false)
      | none =>
        if registerUser then
          match name with
          | none =>
            Except.error (mkResp 400 "Validation Error" "Name is required for registration", st)
          | some nm =>
            let emailArg := match otpRecord.method with
              | OtpDeliveryMethod.email => some otpRecord.recipient
              | OtpDeliveryMethod.sms => none
            let phoneArg := match otpRecord.method with
              | OtpDeliveryMethod.email => none
              | OtpDeliveryMethod.sms => some otpRecord.recipient
            match UserModel.createUser st nm emailArg phoneArg authMethod newUserId now with
            | Except.error _ =>
              -- a throw inside the handler lands in the generic catch block
              Except.error
                (mkResp 500 "Internal Server Error"
                  "Failed to verify OTP. Please try again later.", st)
            | Except.ok (user, st1) =>
              let st2 := match otpRecord.method with
                | OtpDeliveryMethod.email => UserModel.verifyEmail st1 user.id now
                | OtpDeliveryMethod.sms => UserModel.verifyPhone st1 user.id now
              Except.ok (finishLogin st2 user true)
        else
          let which := match otpRecord.method with
            | OtpDeliveryMethod.email => "email"
            | OtpDeliveryMethod.sms => "phone number"
          Except.error
            (mkResp 404 "Not Found"
              ("No account found with this " ++ which ++ ". Please register first."), st)
  match outcome with
  | Except.error (resp, st') => (resp, st')
  | Except.ok (resp, st', _) => (resp, st')

/-- The `POST /api/auth/verify-otp` handler of `routes/auth.ts`.  Any error
thrown by `OtpUtils.verifyOtp` (unknown id, attempts exhausted, model-level
failure) is caught by the surrounding try/catch and answered with the generic
500 response; otherwise the handler branches on the returned record's status. -/
def verifyOtpHandler (st : ServerState) (otpId code : String)
    (registerUser : Bool) (name : Option String) (newUserId : String)
    (now : Int) : ApiResponse × ServerState :=
  match OtpUtils.verifyOtp st otpId code now with
  | (Except.error _, st1) =>
    (mkResp 500 "Internal Server Error"
      "Failed to verify OTP. Please try again later.", st1)
  | (Except.ok otpRecord, st1) =>
    if otpRecord.status = OtpStatus.expired then
      (mkResp 400 "Verification Error" "OTP has expired. Please request a new one.", st1)
    else if otpRecord.status ≠ OtpStatus.verified then
      ({ mkResp 400 "Verification Error" "Invalid OTP code" with
           attemptsLeft := some (otpRecord.maxAttempts - otpRecord.attempts) }, st1)
    else
      verifyOtpSuccess st1 otpRecord registerUser name newUserId now

end AuthRoutes

/-- The credential data the external WebAuthn verifier extracts from a valid
attestation (`registrationInfo` of `@simplewebauthn/server`); binary values
appear already base64url-encoded, as the handler stores them. -/
structure RegistrationInfo : Type where
  credentialID : String
  credentialPublicKey : String
  counter : Nat
  deriving DecidableEq

/-- Outcome of `verifyRegistrationResponse` when it returns (rather than
throws). -/
structure VerifiedRegistrationResponse : Type where
  verified : Bool
  registrationInfo : Option RegistrationInfo
  deriving DecidableEq

/-- The data the external WebAuthn verifier reports for a valid assertion
(`authenticationInfo` of `@simplewebauthn/server`). -/
structure AuthenticationInfo : Type where
  newCounter : Nat
  deriving DecidableEq

/-- Outcome of `verifyAuthenticationResponse` when it returns (rather than
throws). -/
structure VerifiedAuthenticationResponse : Type where
  verified : Bool
  authenticationInfo : Option AuthenticationInfo
  deriving DecidableEq

namespace WebAuthnRoutes

/-- The `POST /api/webauthn/verify-registration` handler of
`routes/webauthn.ts`.  The external attestation verification is supplied as
`verification`: `Except.error msg` models `verifyRegistrationResponse`
throwing, `Except.ok v` its returned value.  On success the credential is
stored (under the fresh UUID `newCredId`), the session is consumed, and
`webauthn` is (re-)added to the user's auth methods. -/
def verifyRegistrationHandler (st : ServerState) (sessionId : String)
    (verification : Except String VerifiedRegistrationResponse)
    (credTransports : List String) (newCredId : String) (now : Int) :
    ApiResponse × ServerState :=
  match SMap.get st.webAuthnSessions sessionId with
  | none => (mkResp 400 "Invalid Session" "Registration session not found or expired", st)
  | some session =>
    match session.userId with
    | none => (mkResp 404 "Not Found" "User not found", st)
    | some uid =>
      match UserModel.getUserById st uid with
      | none => (mkResp 404 "Not Found" "User not found", st)
      | some _user =>
        match verification with
        | Except.error msg => (mkResp 400 "Verification Error" msg, st)
        | Except.ok v =>
          match v.verified, v.registrationInfo with
          | true, some info =>
            let stored := UserModel.storeWebAuthnCredential st uid info.credentialID
              info.credentialPublicKey info.counter credTransports "platform" newCredId now
            let st2 := { stored.2 with
                           webAuthnSessions := SMap.del stored.2.webAuthnSessions sessionId }
            let st3 := UserModel.addAuthMethod st2 uid AuthMethod.webauthn now
            ({ mkResp 200 "" "WebAuthn credential registered successfully" with
                 success := true }, st3)
          | _, _ =>
            (mkResp 400 "Verification Error" "Registration verification failed", st)

/-- The `POST /api/webauthn/verify-authentication` handler of
`routes/webauthn.ts`.  `credentialId` is the base64url id extracted from the
client assertion; the external assertion verification is supplied as
`verification`.  On success the stored credential's counter is overwritten
with the verifier-reported `newCounter`, the last login is stamped, and the
session is consumed. -/
def verifyAuthenticationHandler (st : ServerState) (sessionId : String)
    (credentialId : String)
    (verification : Except String VerifiedAuthenticationResponse)
    (now : Int) : ApiResponse × ServerState :=
  match SMap.get st.webAuthnSessions sessionId with
  | none => (mkResp 400 "Invalid Session" "Authentication session not found or expired", st)
  | some session =>
    match session.userId with
    | none => (mkResp 404 "Not Found" "User not found", st)
    | some uid =>
      match UserModel.getUserById st uid with
      | none => (mkResp 404 "Not Found" "User not found", st)
      | some user =>
        match UserModel.getWebAuthnCredentialByCredentialId st credentialId with
        | none =>
          ({ mkResp 400 "Authentication Error" "Unknown credential" with
               fallbackToOtp := true }, st)
        | some storedCredential =>
          if storedCredential.userId ≠ user.id then
            (mkResp 403 "Forbidden" "Credential does not belong to this user", st)
          else
            match verification with
            | Except.error msg =>
              ({ mkResp 400 "Verification Error" msg with fallbackToOtp := true }, st)
            | Except.ok v =>
              match v.verified, v.authenticationInfo with
              | true, some info =>
                let upd := UserModel.updateWebAuthnCredentialCounter st
                  storedCredential.id info.newCounter now
                let st3 := UserModel.updateLastLogin upd.2 user.id now
                let st4 := { st3 with
                               webAuthnSessions := SMap.del st3.webAuthnSessions sessionId }
                ({ mkResp 200 "" "Authentication successful" with success := true }, st4)
              | _, _ =>
                ({ mkResp 400 "Verification Error" "Authentication verification failed"
                     with fallbackToOtp := true }, st)

end WebAuthnRoutes

/-- Issuance outcome inspection: did `createAndSendOtp` return a record? -/
def isOkB {ε α : Type} : Except ε α → Bool
  | Except.ok _ => true
  | Except.error _ => false

/-! ### Concrete scenarios used by witnesses and counterexamples -/

/-- Scenario: first OTP issuance for `a@b.c` on a fresh server at time 0. -/
def C1res1 : Except String OtpRecord × ServerState :=
  OtpUtils.createAndSendOtp ServerState.empty "a@b.c" OtpDeliveryMethod.email none
    "111111" "otp1" 0

/-- Scenario: second OTP issuance for the same recipient, one second later. -/
def C1res2 : Except String OtpRecord × ServerState :=
  OtpUtils.createAndSendOtp C1res1.2 "a@b.c" OtpDeliveryMethod.email none
    "222222" "otp2" 1000

/-- A challenge record whose 3 attempts are already used up. -/
def C2rec : OtpRecord :=
  { id := "otp2x", userId := none, recipient := "a@b.c", code := "111111"
    method := OtpDeliveryMethod.email, status := OtpStatus.pending
    attempts := 3, maxAttempts := 3, createdAt := 0, expiresAt := 600000
    verifiedAt := none }

/-- A server holding only `C2rec`. -/
def C2state : ServerState :=
  { ServerState.empty with otpRecords := [("otp2x", C2rec)] }

/-- A fresh pending challenge record with no attempts. -/
def C3rec : OtpRecord :=
  { id := "otp3x", userId := none, recipient := "a@b.c", code := "111111"
    method := OtpDeliveryMethod.email, status := OtpStatus.pending
    attempts := 0, maxAttempts := 3, createdAt := 0, expiresAt := 600000
    verifiedAt := none }

/-- A server holding only `C3rec`. -/
def C3state : ServerState :=
  { ServerState.empty with otpRecords := [("otp3x", C3rec)] }

/-- A pending challenge record that expires at time 5. -/
def C4rec : OtpRecord :=
  { id := "otp4x", userId := none, recipient := "a@b.c", code := "111111"
    method := OtpDeliveryMethod.email, status := OtpStatus.pending
    attempts := 0, maxAttempts := 3, createdAt := 0, expiresAt := 5
    verifiedAt := none }

/-- A server holding only `C4rec`. -/
def C4state : ServerState :=
  { ServerState.empty with otpRecords := [("otp4x", C4rec)] }

/-- Issuance chain for the C5 witness: requests at times 0..5, then 3600001. -/
def C5res1 : Except String OtpRecord × ServerState :=
  OtpUtils.createAndSendOtp ServerState.empty "a@b.c" OtpDeliveryMethod.email none "c1" "i1" 0

def C5res2 : Except String OtpRecord × ServerState :=
  OtpUtils.createAndSendOtp C5res1.2 "a@b.c" OtpDeliveryMethod.email none "c2" "i2" 1

def C5res3 : Except String OtpRecord × ServerState :=
  OtpUtils.createAndSendOtp C5res2.2 "a@b.c" OtpDeliveryMethod.email none "c3" "i3" 2

def C5res4 : Except String OtpRecord × ServerState :=
  OtpUtils.createAndSendOtp C5res3.2 "a@b.c" OtpDeliveryMethod.email none "c4" "i4" 3

def C5res5 : Except String OtpRecord × ServerState :=
  OtpUtils.createAndSendOtp C5res4.2 "a@b.c" OtpDeliveryMethod.email none "c5" "i5" 4

def C5res6 : Except String OtpRecord × ServerState :=
  OtpUtils.createAndSendOtp C5res5.2 "a@b.c" OtpDeliveryMethod.email none "c6" "i6" 5

def C5res7 : Except String OtpRecord × ServerState :=
  OtpUtils.createAndSendOtp C5res6.2 "a@b.c" OtpDeliveryMethod.email none "c7" "i7" 3600001

/-- A registered account used by the WebAuthn scenarios. -/
def WAuser : User :=
  { id := "u1", name := "Ada", email := some "a@b.c", phone := none
    did := none, authMethods := [AuthMethod.email], isEmailVerified := true
    isPhoneVerified := false, lastLogin := none, createdAt := 0, updatedAt := 0 }

/-- A stored WebAuthn credential of `WAuser` with signature counter 5. -/
def WAcred : WebAuthnCredential :=
  { id := "c1", userId := "u1", credentialId := "credA", publicKey := "pk"
    counter := 5, transports := [], deviceType := "platform"
    createdAt := 0, lastUsed := none }

/-- A live WebAuthn ceremony session for `WAuser`. -/
def WAsession : WebAuthnSession :=
  { challenge := "chal", userId := some "u1", email := some "a@b.c"
    phone := none, expires := 600000, userVerification := "preferred" }

/-- A server with one user, one credential and one ceremony session. -/
def WAstate : ServerState :=
  { ServerState.empty with
      users := [("u1", WAuser)]
      webauthnCredentials := [("c1", WAcred)]
      webauthnCredentialsByUser := [("u1", ["c1"])]
      webAuthnSessions := [("s1", WAsession)] }

/-! ### Basic lemmas about the map model -/

theorem SMap.get_set_self {α : Type} (m : SMap α) (k : String) (v : α) :
    SMap.get (SMap.set m k v) k = some v := by
  induction m with
  | nil => simp [SMap.set, SMap.get]
  | cons p rest ih =>
    obtain ⟨k', v'⟩ := p
    by_cases h : k' = k
    · simp [SMap.set, SMap.get, h]
    · simp [SMap.set, SMap.get, h, ih]

theorem SMap.set_set_self {α : Type} (m : SMap α) (k : String) (v w : α) :
    SMap.set (SMap.set m k v) k w = SMap.set m k w := by
  induction m with
  | nil => simp [SMap.set]
  | cons p rest ih =>
    obtain ⟨k', v'⟩ := p
    by_cases h : k' = k <;> simp [SMap.set, h, ih]

theorem SMap.del_set_self {α : Type} (m : SMap α) (k : String) (v : α)
    (h : SMap.get m k = none) : SMap.del (SMap.set m k v) k = m := by
  induction m with
  | nil => simp [SMap.set, SMap.del]
  | cons p rest ih =>
    obtain ⟨k', v'⟩ := p
    by_cases hk : k' = k
    · simp [SMap.get, hk] at h
    · simp only [SMap.get, if_neg hk] at h
      simp [SMap.set, SMap.del, hk, ih h]

theorem SMap.get_eq_none_of_not_mem {α : Type} (m : SMap α) (k : String)
    (h : k ∉ m.map Prod.fst) : SMap.get m k = none := by
  induction m with
  | nil => rfl
  | cons p rest ih =>
    obtain ⟨k', v'⟩ := p
    simp only [List.map, List.mem_cons, not_or] at h
    rw [SMap.get, if_neg (fun hh => h.1 hh.symm)]
    exact ih h.2

theorem SMap.get_del_self {α : Type} (m : SMap α) (k : String)
    (h : (m.map Prod.fst).Nodup) : SMap.get (SMap.del m k) k = none := by
  induction m with
  | nil => rfl
  | cons p rest ih =>
    obtain ⟨k', v'⟩ := p
    simp only [List.map, List.nodup_cons] at h
    by_cases hk : k' = k
    · rw [SMap.del, if_pos hk]
      exact SMap.get_eq_none_of_not_mem rest k (hk ▸ h.1)
    · rw [SMap.del, if_neg hk, SMap.get, if_neg hk]
      exact ih h.2

/-- When `isRateLimited` answers `true` it has not touched the cache: the
stale-window deletion happens only on an allowing path. -/
theorem OtpUtils.isRateLimited_true_cache_eq (cache : SMap RateLimitRecord)
    (recipient : String) (now : Int)
    (h : (OtpUtils.isRateLimited cache recipient now).1 = true) :
    (OtpUtils.isRateLimited cache recipient now).2 = cache := by
  unfold OtpUtils.isRateLimited at h ⊢
  cases hc : SMap.get cache recipient with
  | none => simp [hc] at h
  | some record =>
    simp only [hc] at h ⊢
    norm_num at h ⊢
    by_cases hs : record.firstAttempt < now - 3600000
    · simp [hs] at h
    · simp [hs]

/-- An issuance for a valid email recipient that passes the rate check
succeeds, and its effect on the rate-limit cache is exactly
`updateRateLimit` applied after the `isRateLimited` check. -/
theorem OtpUtils.createAndSendOtp_allowed_email (st : ServerState) (r : String)
    (uid : Option String) (c i : String) (t : Int)
    (hvalid : OtpUtils.isValidEmail r = true)
    (hrl : (OtpUtils.isRateLimited st.rateLimitCache r t).1 = false) :
    isOkB (OtpUtils.createAndSendOtp st r OtpDeliveryMethod.email uid c i t).1 = true ∧
    (OtpUtils.createAndSendOtp st r OtpDeliveryMethod.email uid c i t).2.rateLimitCache =
      OtpUtils.updateRateLimit (OtpUtils.isRateLimited st.rateLimitCache r t).2 r t := by
  simp [OtpUtils.createAndSendOtp, hvalid, hrl, isOkB,
    UserModel.createOtp, UserModel.invalidateOtps]

/-- An issuance for a valid email recipient that fails the rate check throws
the rate-limit error and leaves the whole state unchanged. -/
theorem OtpUtils.createAndSendOtp_limited_email (st : ServerState) (r : String)
    (uid : Option String) (c i : String) (t : Int)
    (hvalid : OtpUtils.isValidEmail r = true)
    (hrl : (OtpUtils.isRateLimited st.rateLimitCache r t).1 = true) :
    OtpUtils.createAndSendOtp st r OtpDeliveryMethod.email uid c i t =
      (Except.error "Rate limit exceeded. Please try again later.", st) := by
  have h2 := OtpUtils.isRateLimited_true_cache_eq st.rateLimitCache r t hrl
  simp [OtpUtils.createAndSendOtp, hvalid, hrl, h2]

theorem OtpUtils.isRateLimited_allowed (cache : SMap RateLimitRecord) (r : String)
    (w : RateLimitRecord) (t : Int) (hget : SMap.get cache r = some w)
    (hfresh : ¬ w.firstAttempt < t - 3600000) (hcount : w.count < 5) :
    OtpUtils.isRateLimited cache r t = (false, cache) := by
  unfold OtpUtils.isRateLimited
  simp only [hget]
  have hf : ¬ w.firstAttempt < t - 60 * 60 * 1000 := by omega
  rw [if_neg hf]
  have h5 : ¬ w.count ≥ 5 := by omega
  simp [h5]

theorem OtpUtils.isRateLimited_limited (cache : SMap RateLimitRecord) (r : String)
    (w : RateLimitRecord) (t : Int) (hget : SMap.get cache r = some w)
    (hfresh : ¬ w.firstAttempt < t - 3600000) (hcount : w.count ≥ 5) :
    OtpUtils.isRateLimited cache r t = (true, cache) := by
  unfold OtpUtils.isRateLimited
  simp only [hget]
  have hf : ¬ w.firstAttempt < t - 60 * 60 * 1000 := by omega
  rw [if_neg hf]
  simp [hcount]

theorem OtpUtils.isRateLimited_stale (cache : SMap RateLimitRecord) (r : String)
    (w : RateLimitRecord) (t : Int) (hget : SMap.get cache r = some w)
    (hstale : w.firstAttempt < t - 3600000) :
    OtpUtils.isRateLimited cache r t = (false, SMap.del cache r) := by
  unfold OtpUtils.isRateLimited
  simp only [hget]
  have hf : w.firstAttempt < t - 60 * 60 * 1000 := by omega
  rw [if_pos hf]

theorem OtpUtils.updateRateLimit_none (cache : SMap RateLimitRecord) (r : String)
    (t : Int) (h : SMap.get cache r = none) :
    OtpUtils.updateRateLimit cache r t =
      SMap.set cache r { count := 1, firstAttempt := t, lastAttempt := t } := by
  unfold OtpUtils.updateRateLimit
  simp only [h]

theorem OtpUtils.updateRateLimit_some (cache : SMap RateLimitRecord) (r : String)
    (w : RateLimitRecord) (t : Int) (h : SMap.get cache r = some w) :
    OtpUtils.updateRateLimit cache r t =
      SMap.set cache r { count := w.count + 1, firstAttempt := w.firstAttempt, lastAttempt := t } := by
  unfold OtpUtils.updateRateLimit
  simp only [h]

/-- Claim C5: for every recipient, the first 5 OTP issuance requests within
one hour of the first request are allowed and the 6th is rejected as
rate-limited; once the clock is more than 1 hour past the recipient's first
recorded attempt, the window resets and the next issuance request for that
recipient succeeds.  (`res1` … `res7` are the seven successive
`createAndSendOtp` calls; the 6th leaves the state unchanged, so the 7th
request sees the window opened at `t1`.) -/
theorem C5_rate_limit_window (st0 : ServerState) (r : String)
    (uid : Option String) (c1 c2 c3 c4 c5 c6 c7 i1 i2 i3 i4 i5 i6 i7 : String)
    (t1 t2 t3 t4 t5 t6 t7 : Int)
    (res1 res2 res3 res4 res5 res6 res7 : Except String OtpRecord × ServerState)
    (hvalid : OtpUtils.isValidEmail r = true)
    (h0 : SMap.get st0.rateLimitCache r = none)
    (h2 : t1 ≤ t2 ∧ t2 ≤ t1 + 3600000)
    (h3 : t2 ≤ t3 ∧ t3 ≤ t1 + 3600000)
    (h4 : t3 ≤ t4 ∧ t4 ≤ t1 + 3600000)
    (h5 : t4 ≤ t5 ∧ t5 ≤ t1 + 3600000)
    (h6 : t5 ≤ t6 ∧ t6 ≤ t1 + 3600000)
    (h7 : t1 + 3600000 < t7)
    (e1 : res1 = OtpUtils.createAndSendOtp st0 r OtpDeliveryMethod.email uid c1 i1 t1)
    (e2 : res2 = OtpUtils.createAndSendOtp res1.2 r OtpDeliveryMethod.email uid c2 i2 t2)
    (e3 : res3 = OtpUtils.createAndSendOtp res2.2 r OtpDeliveryMethod.email uid c3 i3 t3)
    (e4 : res4 = OtpUtils.createAndSendOtp res3.2 r OtpDeliveryMethod.email uid c4 i4 t4)
    (e5 : res5 = OtpUtils.createAndSendOtp res4.2 r OtpDeliveryMethod.email uid c5 i5 t5)
    (e6 : res6 = OtpUtils.createAndSendOtp res5.2 r OtpDeliveryMethod.email uid c6 i6 t6)
    (e7 : res7 = OtpUtils.createAndSendOtp res6.2 r OtpDeliveryMethod.email uid c7 i7 t7) :
    isOkB res1.1 = true ∧ isOkB res2.1 = true ∧ isOkB res3.1 = true ∧
    isOkB res4.1 = true ∧ isOkB res5.1 = true ∧
    res6.1 = Except.error "Rate limit exceeded. Please try again later." ∧
    isOkB res7.1 = true := by
  obtain ⟨h2a, h2b⟩ := h2
  obtain ⟨h3a, h3b⟩ := h3
  obtain ⟨h4a, h4b⟩ := h4
  obtain ⟨h5a, h5b⟩ := h5
  obtain ⟨h6a, h6b⟩ := h6
  -- request 1: no window yet, allowed, window opens with count 1
  have hrl1 : OtpUtils.isRateLimited st0.rateLimitCache r t1 = (false, st0.rateLimitCache) := by
    unfold OtpUtils.isRateLimited
    simp only [h0]
  have s1 := OtpUtils.createAndSendOtp_allowed_email st0 r uid c1 i1 t1 hvalid (by rw [hrl1])
  have hc1 : res1.2.rateLimitCache = SMap.set st0.rateLimitCache r ⟨1, t1, t1⟩ := by
    rw [e1, s1.2]
    simp only [hrl1]
    rw [OtpUtils.updateRateLimit_none _ _ _ h0]
  -- request 2
  have hget1 : SMap.get res1.2.rateLimitCache r = some ⟨1, t1, t1⟩ := by
    rw [hc1]; exact SMap.get_set_self _ _ _
  have hrl2 := OtpUtils.isRateLimited_allowed res1.2.rateLimitCache r ⟨1, t1, t1⟩ t2 hget1
    (show ¬ t1 < t2 - 3600000 by omega) (show (1 : Nat) < 5 by norm_num)
  have s2 := OtpUtils.createAndSendOtp_allowed_email res1.2 r uid c2 i2 t2 hvalid (by rw [hrl2])
  have hc2 : res2.2.rateLimitCache = SMap.set st0.rateLimitCache r ⟨2, t1, t2⟩ := by
    rw [e2, s2.2]
    simp only [hrl2]
    rw [OtpUtils.updateRateLimit_some _ _ _ _ hget1, hc1, SMap.set_set_self]
  -- request 3
  have hget2 : SMap.get res2.2.rateLimitCache r = some ⟨2, t1, t2⟩ := by
    rw [hc2]; exact SMap.get_set_self _ _ _
  have hrl3 := OtpUtils.isRateLimited_allowed res2.2.rateLimitCache r ⟨2, t1, t2⟩ t3 hget2
    (show ¬ t1 < t3 - 3600000 by omega) (show (2 : Nat) < 5 by norm_num)
  have s3 := OtpUtils.createAndSendOtp_allowed_email res2.2 r uid c3 i3 t3 hvalid (by rw [hrl3])
  have hc3 : res3.2.rateLimitCache = SMap.set st0.rateLimitCache r ⟨3, t1, t3⟩ := by
    rw [e3, s3.2]
    simp only [hrl3]
    rw [OtpUtils.updateRateLimit_some _ _ _ _ hget2, hc2, SMap.set_set_self]
  -- request 4
  have hget3 : SMap.get res3.2.rateLimitCache r = some ⟨3, t1, t3⟩ := by
    rw [hc3]; exact SMap.get_set_self _ _ _
  have hrl4 := OtpUtils.isRateLimited_allowed res3.2.rateLimitCache r ⟨3, t1, t3⟩ t4 hget3
    (show ¬ t1 < t4 - 3600000 by omega) (show (3 : Nat) < 5 by norm_num)
  have s4 := OtpUtils.createAndSendOtp_allowed_email res3.2 r uid c4 i4 t4 hvalid (by rw [hrl4])
  have hc4 : res4.2.rateLimitCache = SMap.set st0.rateLimitCache r ⟨4, t1, t4⟩ := by
    rw [e4, s4.2]
    simp only [hrl4]
    rw [OtpUtils.updateRateLimit_some _ _ _ _ hget3, hc3, SMap.set_set_self]
  -- request 5
  have hget4 : SMap.get res4.2.rateLimitCache r = some ⟨4, t1, t4⟩ := by
    rw [hc4]; exact SMap.get_set_self _ _ _
  have hrl5 := OtpUtils.isRateLimited_allowed res4.2.rateLimitCache r ⟨4, t1, t4⟩ t5 hget4
    (show ¬ t1 < t5 - 3600000 by omega) (show (4 : Nat) < 5 by norm_num)
  have s5 := OtpUtils.createAndSendOtp_allowed_email res4.2 r uid c5 i5 t5 hvalid (by rw [hrl5])
  have hc5 : res5.2.rateLimitCache = SMap.set st0.rateLimitCache r ⟨5, t1, t5⟩ := by
    rw [e5, s5.2]
    simp only [hrl5]
    rw [OtpUtils.updateRateLimit_some _ _ _ _ hget4, hc4, SMap.set_set_self]
  -- request 6: count is 5, within the hour, rejected, nothing recorded
  have hget5 : SMap.get res5.2.rateLimitCache r = some ⟨5, t1, t5⟩ := by
    rw [hc5]; exact SMap.get_set_self _ _ _
  have hrl6 := OtpUtils.isRateLimited_limited res5.2.rateLimitCache r ⟨5, t1, t5⟩ t6 hget5
    (show ¬ t1 < t6 - 3600000 by omega) (show (5 : Nat) ≥ 5 by norm_num)
  have s6 := OtpUtils.createAndSendOtp_limited_email res5.2 r uid c6 i6 t6 hvalid (by rw [hrl6])
  -- request 7: more than one hour past the first attempt, window reset, allowed
  have hget6 : SMap.get res6.2.rateLimitCache r = some ⟨5, t1, t5⟩ := by
    rw [e6, s6]; exact hget5
  have hrl7 := OtpUtils.isRateLimited_stale res6.2.rateLimitCache r ⟨5, t1, t5⟩ t7 hget6
    (show t1 < t7 - 3600000 by omega)
  have s7 := OtpUtils.createAndSendOtp_allowed_email res6.2 r uid c7 i7 t7 hvalid (by rw [hrl7])
  refine ⟨?_, ?_, ?_, ?_, ?_, ?_, ?_⟩
  · rw [e1]; exact s1.1
  · rw [e2]; exact s2.1
  · rw [e3]; exact s3.1
  · rw [e4]; exact s4.1
  · rw [e5]; exact s5.1
  · rw [e6, s6]
  · rw [e7]; exact s7.1

/-- Witness for C5: the concrete chain `C5res1` … `C5res7` at times
0,1,2,3,4,5 and 3600001 on a fresh server. -/
theorem C5_rate_limit_window_witness :
    isOkB C5res1.1 = true ∧ isOkB C5res2.1 = true ∧ isOkB C5res3.1 = true ∧
    isOkB C5res4.1 = true ∧ isOkB C5res5.1 = true ∧
    C5res6.1 = Except.error "Rate limit exceeded. Please try again later." ∧
    isOkB C5res7.1 = true :=
  C5_rate_limit_window ServerState.empty "a@b.c" none
    "c1" "c2" "c3" "c4" "c5" "c6" "c7" "i1" "i2" "i3" "i4" "i5" "i6" "i7"
    0 1 2 3 4 5 3600001
    C5res1 C5res2 C5res3 C5res4 C5res5 C5res6 C5res7
    rfl rfl (by norm_num) (by norm_num) (by norm_num) (by norm_num) (by norm_num)
    (by norm_num) rfl rfl rfl rfl rfl rfl rfl

/-- Claim C2: for every OTP challenge record that is unexpired and on which
the maximum of 3 verification attempts has already been made, any further
verify call on that challenge id fails with the attempts-exhausted error for
every submitted code (including the correct one) and does not further mutate
the stored record: the whole state is returned unchanged. -/
theorem C2_attempts_exhausted_rejected (st : ServerState) (id code : String)
    (now : Int) (r : OtpRecord) (hget : SMap.get st.otpRecords id = some r)
    (hexp : ¬ now > r.expiresAt) (hatt : r.attempts ≥ 3) :
    OtpUtils.verifyOtp st id code now =
      (Except.error "Maximum verification attempts reached", st) := by
  unfold OtpUtils.verifyOtp UserModel.getOtpById
  simp only [hget]
  rw [if_neg hexp, if_pos (show r.attempts ≥ OtpUtils.MAX_OTP_ATTEMPTS from hatt)]

/-- Witness for C2: a record with 3 used attempts, unexpired, rejected even
for its correct code, with the state untouched. -/
theorem C2_attempts_exhausted_rejected_witness :
    OtpUtils.verifyOtp C2state "otp2x" "111111" 5 =
      (Except.error "Maximum verification attempts reached", C2state) :=
  C2_attempts_exhausted_rejected C2state "otp2x" "111111" 5 C2rec rfl
    (by decide) (by decide)

/-- Claim C3, counterexample: a failed verification attempt that does not
exhaust the attempt limit does not leave the stored status `pending` — the
code stamps the per-attempt outcome `invalid` into the stored record.  Here
the record has 0 of 3 attempts used; after one wrong code the stored status
is `invalid` (so not `pending`) while only 1 attempt is used. -/
theorem C3_failed_attempt_not_pending :
    (SMap.get (UserModel.verifyOtp C3state "otp3x" "000000" 10).2.otpRecords "otp3x").map
        OtpRecord.status = some OtpStatus.invalid ∧
    ¬ (SMap.get (UserModel.verifyOtp C3state "otp3x" "000000" 10).2.otpRecords "otp3x").map
        OtpRecord.status = some OtpStatus.pending ∧
    (UserModel.verifyOtp C3state "otp3x" "000000" 10).1.map OtpRecord.attempts = some 1 :=
  ⟨rfl, by decide, rfl⟩

/-- Claim C3 (amended): a failed attempt that does not exhaust the limit sets
the stored status to `invalid` (the per-attempt outcome) and increments the
attempt count; the record nonetheless keeps accepting attempts — a later
verify with the correct code, before expiry and still under the limit,
yields `verified`. -/
theorem C3_failed_attempt_sets_invalid (st : ServerState) (id code : String)
    (now : Int) (r : OtpRecord) (hget : SMap.get st.otpRecords id = some r)
    (hexp : ¬ now > r.expiresAt) (hatt : r.attempts < r.maxAttempts)
    (hcode : code ≠ r.code) :
    (UserModel.verifyOtp st id code now).1 =
      some { r with attempts := r.attempts + 1, status := OtpStatus.invalid } ∧
    SMap.get (UserModel.verifyOtp st id code now).2.otpRecords id =
      some { r with attempts := r.attempts + 1, status := OtpStatus.invalid } ∧
    (∀ now2 : Int, ¬ now2 > r.expiresAt → r.attempts + 1 < r.maxAttempts →
      ((UserModel.verifyOtp (UserModel.verifyOtp st id code now).2 id r.code now2).1.map
          OtpRecord.status) = some OtpStatus.verified) := by
  have hq : UserModel.verifyOtp st id code now =
      (some { r with attempts := r.attempts + 1, status := OtpStatus.invalid },
       { st with otpRecords := SMap.set st.otpRecords id ({ r with attempts := r.attempts + 1, status := OtpStatus.invalid }) }) := by
    unfold UserModel.verifyOtp
    simp only [hget]
    rw [if_neg hexp]
    rw [if_neg (show ¬ r.attempts ≥ r.maxAttempts from not_le.mpr hatt)]
    rw [if_neg hcode]
  refine ⟨by rw [hq], by rw [hq]; exact SMap.get_set_self _ _ _, ?_⟩
  intro now2 hn2 ha2
  rw [hq]
  unfold UserModel.verifyOtp
  simp only [SMap.get_set_self]
  rw [if_neg hn2]
  rw [if_neg (not_le.mpr ha2)]
  simp

/-- Witness for the amended C3: one wrong code on `C3rec`, then the correct
code on the resulting state, yields `verified`. -/
theorem C3_failed_attempt_sets_invalid_witness :
    (UserModel.verifyOtp C3state "otp3x" "000000" 10).1 =
      some { C3rec with attempts := 1, status := OtpStatus.invalid } ∧
    ((UserModel.verifyOtp (UserModel.verifyOtp C3state "otp3x" "000000" 10).2
        "otp3x" "111111" 20).1.map OtpRecord.status) = some OtpStatus.verified := by
  have h := C3_failed_attempt_sets_invalid C3state "otp3x" "000000" 10 C3rec rfl
    (by decide) (by decide) (by decide)
  exact ⟨h.1, h.2.2 20 (by decide) (by decide)⟩

/-- Claim C4, counterexample: verifying `C4rec` (expires at 5) at time 6 with
its correct code returns a copy with status `expired`, but the whole state —
in particular the stored record, still `pending` — is unchanged, so the
stored record does not transition to `expired`. -/
theorem C4_expired_status_not_persisted :
    Except.map OtpRecord.status (OtpUtils.verifyOtp C4state "otp4x" "111111" 6).1 =
      Except.ok OtpStatus.expired ∧
    (OtpUtils.verifyOtp C4state "otp4x" "111111" 6).2 = C4state ∧
    (SMap.get (OtpUtils.verifyOtp C4state "otp4x" "111111" 6).2.otpRecords "otp4x").map
        OtpRecord.status = some OtpStatus.pending :=
  ⟨rfl, rfl, rfl⟩

/-- Claim C4 (amended): every verify call made after the record's expiry
timestamp returns the record with status `expired` regardless of the
submitted code, and leaves the stored state unchanged (the expired status is
returned but not persisted, because the utility layer returns before the
model layer runs). -/
theorem C4_expired_returns_copy (st : ServerState) (id code : String)
    (now : Int) (r : OtpRecord) (hget : SMap.get st.otpRecords id = some r)
    (hexp : now > r.expiresAt) :
    OtpUtils.verifyOtp st id code now =
      (Except.ok { r with status := OtpStatus.expired }, st) := by
  unfold OtpUtils.verifyOtp UserModel.getOtpById
  simp only [hget]
  rw [if_pos hexp]

/-- Witness for the amended C4: a wrong code after expiry also gets the
`expired` copy, state untouched. -/
theorem C4_expired_returns_copy_witness :
    OtpUtils.verifyOtp C4state "otp4x" "000000" 6 =
      (Except.ok { C4rec with status := OtpStatus.expired }, C4state) :=
  C4_expired_returns_copy C4state "otp4x" "000000" 6 C4rec rfl (by decide)

/-- Claim C1, evaluated at the failing input: on a fresh server, issue an OTP
for `a@b.c` (challenge `otp1`, code `111111`, time 0), then issue a second
one (time 1000).  The second issue does mark the first record `invalid`
(first conjunct), the first record is unexpired (expires at 600000) with 0
attempts used — yet verifying the first challenge id with its original code
at time 2000 still yields status `verified`, because `UserModel.verifyOtp`
never consults the stored status.  This refutes the claim that the verify
cannot yield `verified` after the second issue. -/
theorem C1_first_challenge_still_verifies_after_reissue :
    (SMap.get C1res2.2.otpRecords "otp1").map OtpRecord.status =
      some OtpStatus.invalid ∧
    (SMap.get C1res2.2.otpRecords "otp1").map OtpRecord.attempts = some 0 ∧
    (SMap.get C1res2.2.otpRecords "otp1").map OtpRecord.expiresAt = some 600000 ∧
    Except.map OtpRecord.status (OtpUtils.verifyOtp C1res2.2 "otp1" "111111" 2000).1 =
      Except.ok OtpStatus.verified ∧
    (SMap.get (OtpUtils.verifyOtp C1res2.2 "otp1" "111111" 2000).2.otpRecords
        "otp1").map OtpRecord.status = some OtpStatus.verified :=
  ⟨rfl, rfl, rfl, rfl, rfl⟩

/-- Claim C9, evaluated at the failing inputs: a verify-OTP request with an
unknown challenge id, and one whose challenge has its 3 attempts exhausted,
are both answered by the transport layer with the generic 500
Internal Server Error response — the thrown `NotFound` and
`AttemptsExhausted` errors land in the catch-all — rather than with a
distinct structured response.  This refutes the claim. -/
theorem C9_protocol_errors_surface_as_500 :
    (AuthRoutes.verifyOtpHandler ServerState.empty "missing" "123456" false none
        "u1" 0).1 =
      mkResp 500 "Internal Server Error"
        "Failed to verify OTP. Please try again later." ∧
    (AuthRoutes.verifyOtpHandler C2state "otp2x" "111111" false none "u1" 5).1 =
      mkResp 500 "Internal Server Error"
        "Failed to verify OTP. Please try again later." :=
  ⟨rfl, rfl⟩

/-- Claim C10: whenever `createAndSendOtp` rejects a request — invalid
recipient format for the channel, or rate-limited recipient (the only throw
sites reachable before any mutation) — the whole state is returned
unchanged: the rate-limit window is not incremented and no pending OTP
record is invalidated. -/
theorem C10_rejected_issue_leaves_state_unchanged (st : ServerState)
    (recipient : String) (method : OtpDeliveryMethod) (userId : Option String)
    (otpCode newId : String) (now : Int) (e : String)
    (herr : (OtpUtils.createAndSendOtp st recipient method userId otpCode newId now).1 =
      Except.error e) :
    (OtpUtils.createAndSendOtp st recipient method userId otpCode newId now).2 = st := by
  unfold OtpUtils.createAndSendOtp at herr ⊢
  by_cases hA : method = OtpDeliveryMethod.email ∧ OtpUtils.isValidEmail recipient = false
  · simp [hA]
  · by_cases hB : method = OtpDeliveryMethod.sms ∧ OtpUtils.isValidPhone recipient = false
    · simp [hA, hB]
    · simp only [if_neg hA, if_neg hB] at herr ⊢
      by_cases hl : (OtpUtils.isRateLimited st.rateLimitCache recipient now).1 = true
      · have hc := OtpUtils.isRateLimited_true_cache_eq st.rateLimitCache recipient now hl
        simp [hl, hc]
      · simp only [Bool.not_eq_true] at hl
        simp [hl] at herr

/-- Witness for C10: an issuance for the malformed email `foo` on a server
with a pending record and a live rate-limit window changes nothing. -/
theorem C10_rejected_issue_leaves_state_unchanged_witness :
    (OtpUtils.createAndSendOtp C3state "foo" OtpDeliveryMethod.email none
        "999999" "otpZ" 50).2 = C3state :=
  C10_rejected_issue_leaves_state_unchanged C3state "foo" OtpDeliveryMethod.email
    none "999999" "otpZ" 50 "Invalid email format" rfl

/-! ### State-projection lemmas for the WebAuthn handlers -/

theorem UserModel.updateLastLogin_sessions (st : ServerState) (uid : String)
    (now : Int) :
    (UserModel.updateLastLogin st uid now).webAuthnSessions = st.webAuthnSessions := by
  unfold UserModel.updateLastLogin
  cases SMap.get st.users uid <;> rfl

theorem UserModel.updateLastLogin_credentials (st : ServerState) (uid : String)
    (now : Int) :
    (UserModel.updateLastLogin st uid now).webauthnCredentials =
      st.webauthnCredentials := by
  unfold UserModel.updateLastLogin
  cases SMap.get st.users uid <;> rfl

theorem UserModel.updateWebAuthnCredentialCounter_sessions (st : ServerState)
    (id : String) (counter : Nat) (now : Int) :
    (UserModel.updateWebAuthnCredentialCounter st id counter now).2.webAuthnSessions =
      st.webAuthnSessions := by
  unfold UserModel.updateWebAuthnCredentialCounter
  cases SMap.get st.webauthnCredentials id <;> rfl

theorem UserModel.addAuthMethod_sessions (st : ServerState) (uid : String)
    (method : AuthMethod) (now : Int) :
    (UserModel.addAuthMethod st uid method now).webAuthnSessions =
      st.webAuthnSessions := by
  unfold UserModel.addAuthMethod
  split
  · rfl
  · split <;> rfl

theorem UserModel.storeWebAuthnCredential_sessions (st : ServerState)
    (userId credentialId publicKey : String) (counter : Nat)
    (transports : List String) (deviceType : String) (newId : String) (now : Int) :
    (UserModel.storeWebAuthnCredential st userId credentialId publicKey counter
        transports deviceType newId now).2.webAuthnSessions = st.webAuthnSessions := by
  simp only [UserModel.storeWebAuthnCredential]
  rw [UserModel.addAuthMethod_sessions]

/-- A verify-authentication request whose session id is unknown (or already
consumed) is answered with the invalid-session response and changes nothing. -/
theorem WebAuthnRoutes.verifyAuthenticationHandler_no_session (st : ServerState)
    (sessionId credentialId : String)
    (verification : Except String VerifiedAuthenticationResponse) (now : Int)
    (h : SMap.get st.webAuthnSessions sessionId = none) :
    WebAuthnRoutes.verifyAuthenticationHandler st sessionId credentialId
        verification now =
      (mkResp 400 "Invalid Session" "Authentication session not found or expired", st) := by
  unfold WebAuthnRoutes.verifyAuthenticationHandler
  simp only [h]

/-- A verify-registration request whose session id is unknown (or already
consumed) is answered with the invalid-session response and changes nothing. -/
theorem WebAuthnRoutes.verifyRegistrationHandler_no_session (st : ServerState)
    (sessionId : String)
    (verification : Except String VerifiedRegistrationResponse)
    (credTransports : List String) (newCredId : String) (now : Int)
    (h : SMap.get st.webAuthnSessions sessionId = none) :
    WebAuthnRoutes.verifyRegistrationHandler st sessionId verification
        credTransports newCredId now =
      (mkResp 400 "Invalid Session" "Registration session not found or expired", st) := by
  unfold WebAuthnRoutes.verifyRegistrationHandler
  simp only [h]

/-- Claim C6: for every WebAuthn registration-completion request whose
attestation verification fails — the external verifier throws (for example on
a tampered or incorrect challenge), reports `verified = false`, or reports no
`registrationInfo` — the request returns a failure (a non-200 response with
`success = false`) and the credential store is unchanged: no WebAuthn
credential record is created. -/
theorem C6_failed_attestation_creates_no_credential (st : ServerState) (sessionId : String)
    (verification : Except String VerifiedRegistrationResponse)
    (credTransports : List String) (newCredId : String) (now : Int)
    (hfail : ∀ v, verification = Except.ok v →
      v.verified = false ∨ v.registrationInfo = none) :
    (WebAuthnRoutes.verifyRegistrationHandler st sessionId verification
        credTransports newCredId now).1.success = false ∧
    (WebAuthnRoutes.verifyRegistrationHandler st sessionId verification
        credTransports newCredId now).1.status ≠ 200 ∧
    (WebAuthnRoutes.verifyRegistrationHandler st sessionId verification
        credTransports newCredId now).2.webauthnCredentials = st.webauthnCredentials := by
  cases hs : SMap.get st.webAuthnSessions sessionId with
  | none =>
    simp [WebAuthnRoutes.verifyRegistrationHandler, hs, mkResp]
  | some session =>
    cases hu : session.userId with
    | none =>
      simp [WebAuthnRoutes.verifyRegistrationHandler, hs, hu, mkResp]
    | some uid =>
      cases hus : UserModel.getUserById st uid with
      | none =>
        simp [WebAuthnRoutes.verifyRegistrationHandler, hs, hu, hus, mkResp]
      | some user =>
        cases verification with
        | error msg =>
          simp [WebAuthnRoutes.verifyRegistrationHandler, hs, hu, hus, mkResp]
        | ok v =>
          cases hvv : v.verified with
          | false =>
            cases hri : v.registrationInfo with
            | none =>
              simp [WebAuthnRoutes.verifyRegistrationHandler, hs, hu, hus, hvv, hri, mkResp]
            | some info =>
              simp [WebAuthnRoutes.verifyRegistrationHandler, hs, hu, hus, hvv, hri, mkResp]
          | true =>
            cases hri : v.registrationInfo with
            | none =>
              simp [WebAuthnRoutes.verifyRegistrationHandler, hs, hu, hus, hvv, hri, mkResp]
            | some info =>
              rcases hfail v rfl with hv | hv
              · rw [hvv] at hv; exact Bool.noConfusion hv
              · rw [hri] at hv; exact Option.noConfusion hv

/-- Witness for C6: a verification reported as not verified on a live
session: the response fails and the credential store of `WAstate` is
untouched. -/
theorem C6_failed_attestation_creates_no_credential_witness :
    (WebAuthnRoutes.verifyRegistrationHandler WAstate "s1"
        (Except.ok ⟨false, none⟩) [] "c2" 10).1.success = false ∧
    (WebAuthnRoutes.verifyRegistrationHandler WAstate "s1"
        (Except.ok ⟨false, none⟩) [] "c2" 10).1.status ≠ 200 ∧
    (WebAuthnRoutes.verifyRegistrationHandler WAstate "s1"
        (Except.ok ⟨false, none⟩) [] "c2" 10).2.webauthnCredentials =
      WAstate.webauthnCredentials :=
  C6_failed_attestation_creates_no_credential WAstate "s1"
    (Except.ok ⟨false, none⟩) [] "c2" 10
    (fun v hv => by injection hv with h; rw [← h]; exact Or.inl rfl)

/-- Claim C8: after every successful WebAuthn authentication completion, the
stored signature counter of the used credential equals the verifier-reported
new counter `n`; and for any authentic, non-replayed assertion — one for
which the verifier reports a counter strictly greater than the stored one —
the stored value after the call is strictly greater than the previously
stored counter.  (The code performs no check of its own: it overwrites the
stored counter with whatever the external verifier reports.) -/
theorem C8_counter_equals_verifier_reported (st : ServerState) (sessionId credentialId : String) (now : Int)
    (session : WebAuthnSession) (uid : String) (user : User)
    (cred : WebAuthnCredential) (n : Nat)
    (hs : SMap.get st.webAuthnSessions sessionId = some session)
    (hu : session.userId = some uid)
    (hus : UserModel.getUserById st uid = some user)
    (hcred : UserModel.getWebAuthnCredentialByCredentialId st credentialId = some cred)
    (hown : cred.userId = user.id)
    (hkey : SMap.get st.webauthnCredentials cred.id = some cred) :
    (WebAuthnRoutes.verifyAuthenticationHandler st sessionId credentialId
        (Except.ok ⟨true, some ⟨n⟩⟩) now).1.status = 200 ∧
    (SMap.get (WebAuthnRoutes.verifyAuthenticationHandler st sessionId credentialId
        (Except.ok ⟨true, some ⟨n⟩⟩) now).2.webauthnCredentials cred.id).map
      WebAuthnCredential.counter = some n ∧
    (cred.counter < n → ∀ c2,
      SMap.get (WebAuthnRoutes.verifyAuthenticationHandler st sessionId credentialId
          (Except.ok ⟨true, some ⟨n⟩⟩) now).2.webauthnCredentials cred.id = some c2 →
      cred.counter < c2.counter) := by
  have hupd : UserModel.updateWebAuthnCredentialCounter st cred.id n now =
      (some { cred with counter := n, lastUsed := some now },
       { st with webauthnCredentials := SMap.set st.webauthnCredentials cred.id ({ cred with counter := n, lastUsed := some now }) }) := by
    unfold UserModel.updateWebAuthnCredentialCounter
    simp only [hkey]
  have hcreds : (WebAuthnRoutes.verifyAuthenticationHandler st sessionId credentialId
        (Except.ok ⟨true, some ⟨n⟩⟩) now).2.webauthnCredentials =
      SMap.set st.webauthnCredentials cred.id
        ({ cred with counter := n, lastUsed := some now }) := by
    simp only [WebAuthnRoutes.verifyAuthenticationHandler, hs, hu, hus, hcred, hown]
    rw [if_neg (fun hne => hne rfl)]
    rw [UserModel.updateLastLogin_credentials, hupd, hown]
  have hstat : (WebAuthnRoutes.verifyAuthenticationHandler st sessionId credentialId
        (Except.ok ⟨true, some ⟨n⟩⟩) now).1.status = 200 := by
    simp only [WebAuthnRoutes.verifyAuthenticationHandler, hs, hu, hus, hcred, hown]
    rw [if_neg (fun hne => hne rfl)]
    rfl
  refine ⟨hstat, ?_, ?_⟩
  · rw [hcreds, SMap.get_set_self]
    rfl
  · intro hlt c2 hc2
    rw [hcreds, SMap.get_set_self] at hc2
    injection hc2 with h
    rw [← h]
    exact hlt

/-- Witness for C8: on `WAstate` (stored counter 5), a successful assertion
reporting counter 6 stores exactly 6, strictly above 5. -/
theorem C8_counter_equals_verifier_reported_witness :
    (WebAuthnRoutes.verifyAuthenticationHandler WAstate "s1" "credA"
        (Except.ok ⟨true, some ⟨6⟩⟩) 10).1.status = 200 ∧
    (SMap.get (WebAuthnRoutes.verifyAuthenticationHandler WAstate "s1" "credA"
        (Except.ok ⟨true, some ⟨6⟩⟩) 10).2.webauthnCredentials "c1").map
      WebAuthnCredential.counter = some 6 ∧
    WAcred.counter < 6 := by
  have h := C8_counter_equals_verifier_reported WAstate "s1" "credA" 10
    WAsession "u1" WAuser WAcred 6 rfl rfl rfl rfl rfl rfl
  exact ⟨h.1, h.2.1, by decide⟩

/-- A successful authentication completion consumes its session: the stored
session map afterwards no longer resolves the session id. -/
theorem WebAuthnRoutes.authCompletionConsumesSession (st : ServerState)
    (sessionId credentialId : String) (v : VerifiedAuthenticationResponse)
    (info : AuthenticationInfo) (now : Int) (session : WebAuthnSession)
    (uid : String) (user : User) (cred : WebAuthnCredential)
    (hnd : (st.webAuthnSessions.map Prod.fst).Nodup)
    (hs : SMap.get st.webAuthnSessions sessionId = some session)
    (hu : session.userId = some uid)
    (hus : UserModel.getUserById st uid = some user)
    (hcred : UserModel.getWebAuthnCredentialByCredentialId st credentialId = some cred)
    (hown : cred.userId = user.id)
    (hv : v.verified = true) (hi : v.authenticationInfo = some info) :
    (WebAuthnRoutes.verifyAuthenticationHandler st sessionId credentialId
        (Except.ok v) now).1.status = 200 ∧
    SMap.get (WebAuthnRoutes.verifyAuthenticationHandler st sessionId credentialId
        (Except.ok v) now).2.webAuthnSessions sessionId = none := by
  have hsess : (WebAuthnRoutes.verifyAuthenticationHandler st sessionId credentialId
        (Except.ok v) now).2.webAuthnSessions = SMap.del st.webAuthnSessions sessionId := by
    simp only [WebAuthnRoutes.verifyAuthenticationHandler, hs, hu, hus, hcred, hown, hv, hi]
    rw [if_neg (fun hne => hne rfl)]
    rw [UserModel.updateLastLogin_sessions, UserModel.updateWebAuthnCredentialCounter_sessions]
  have hstat : (WebAuthnRoutes.verifyAuthenticationHandler st sessionId credentialId
        (Except.ok v) now).1.status = 200 := by
    simp only [WebAuthnRoutes.verifyAuthenticationHandler, hs, hu, hus, hcred, hown, hv, hi]
    rw [if_neg (fun hne => hne rfl)]
    rfl
  exact ⟨hstat, by rw [hsess]; exact SMap.get_del_self _ _ hnd⟩

/-- A successful registration completion consumes its session. -/
theorem WebAuthnRoutes.regCompletionConsumesSession (st : ServerState)
    (sessionId : String) (v : VerifiedRegistrationResponse)
    (info : RegistrationInfo) (tr : List String) (newCredId : String) (now : Int)
    (session : WebAuthnSession) (uid : String) (user : User)
    (hnd : (st.webAuthnSessions.map Prod.fst).Nodup)
    (hs : SMap.get st.webAuthnSessions sessionId = some session)
    (hu : session.userId = some uid)
    (hus : UserModel.getUserById st uid = some user)
    (hv : v.verified = true) (hi : v.registrationInfo = some info) :
    (WebAuthnRoutes.verifyRegistrationHandler st sessionId (Except.ok v) tr
        newCredId now).1.status = 200 ∧
    SMap.get (WebAuthnRoutes.verifyRegistrationHandler st sessionId (Except.ok v) tr
        newCredId now).2.webAuthnSessions sessionId = none := by
  have hsess : (WebAuthnRoutes.verifyRegistrationHandler st sessionId (Except.ok v) tr
        newCredId now).2.webAuthnSessions = SMap.del st.webAuthnSessions sessionId := by
    simp only [WebAuthnRoutes.verifyRegistrationHandler, hs, hu, hus, hv, hi]
    rw [UserModel.addAuthMethod_sessions]
    rw [UserModel.storeWebAuthnCredential_sessions]
  have hstat : (WebAuthnRoutes.verifyRegistrationHandler st sessionId (Except.ok v) tr
        newCredId now).1.status = 200 := by
    simp only [WebAuthnRoutes.verifyRegistrationHandler, hs, hu, hus, hv, hi]
    rfl
  exact ⟨hstat, by rw [hsess]; exact SMap.get_del_self _ _ hnd⟩

/-- Claim C7: every WebAuthn session is single-use.  A successful completion
of the authentication ceremony (first conjunct) or of the registration
ceremony (second conjunct) answers 200 and deletes the session immediately:
the session id no longer resolves, and any later completion request
presenting the same already-consumed session id is rejected with the
session-not-found response and leaves the state unchanged.  (The key-nodup
hypothesis is the `Map` invariant of the JS session store.) -/
theorem C7_sessions_single_use :
    (∀ (st : ServerState) (sessionId credentialId : String)
        (v : VerifiedAuthenticationResponse) (info : AuthenticationInfo)
        (now : Int) (session : WebAuthnSession) (uid : String) (user : User)
        (cred : WebAuthnCredential),
      (st.webAuthnSessions.map Prod.fst).Nodup →
      SMap.get st.webAuthnSessions sessionId = some session →
      session.userId = some uid →
      UserModel.getUserById st uid = some user →
      UserModel.getWebAuthnCredentialByCredentialId st credentialId = some cred →
      cred.userId = user.id →
      v.verified = true → v.authenticationInfo = some info →
      ((WebAuthnRoutes.verifyAuthenticationHandler st sessionId credentialId
          (Except.ok v) now).1.status = 200 ∧
       SMap.get (WebAuthnRoutes.verifyAuthenticationHandler st sessionId credentialId
          (Except.ok v) now).2.webAuthnSessions sessionId = none ∧
       (∀ (credentialId2 : String)
          (verification2 : Except String VerifiedAuthenticationResponse) (now2 : Int),
         WebAuthnRoutes.verifyAuthenticationHandler
             (WebAuthnRoutes.verifyAuthenticationHandler st sessionId credentialId
               (Except.ok v) now).2 sessionId credentialId2 verification2 now2 =
           (mkResp 400 "Invalid Session" "Authentication session not found or expired",
            (WebAuthnRoutes.verifyAuthenticationHandler st sessionId credentialId
              (Except.ok v) now).2)))) ∧
    (∀ (st : ServerState) (sessionId : String) (v : VerifiedRegistrationResponse)
        (info : RegistrationInfo) (tr : List String) (newCredId : String)
        (now : Int) (session : WebAuthnSession) (uid : String) (user : User),
      (st.webAuthnSessions.map Prod.fst).Nodup →
      SMap.get st.webAuthnSessions sessionId = some session →
      session.userId = some uid →
      UserModel.getUserById st uid = some user →
      v.verified = true → v.registrationInfo = some info →
      ((WebAuthnRoutes.verifyRegistrationHandler st sessionId (Except.ok v) tr
          newCredId now).1.status = 200 ∧
       SMap.get (WebAuthnRoutes.verifyRegistrationHandler st sessionId (Except.ok v) tr
          newCredId now).2.webAuthnSessions sessionId = none ∧
       (∀ (verification2 : Except String VerifiedRegistrationResponse)
          (tr2 : List String) (newCredId2 : String) (now2 : Int),
         WebAuthnRoutes.verifyRegistrationHandler
             (WebAuthnRoutes.verifyRegistrationHandler st sessionId (Except.ok v) tr
               newCredId now).2 sessionId verification2 tr2 newCredId2 now2 =
           (mkResp 400 "Invalid Session" "Registration session not found or expired",
            (WebAuthnRoutes.verifyRegistrationHandler st sessionId (Except.ok v) tr
              newCredId now).2)))) := by
  constructor
  · intro st sessionId credentialId v info now session uid user cred
      hnd hs hu hus hcred hown hv hi
    have h := WebAuthnRoutes.authCompletionConsumesSession st sessionId credentialId
      v info now session uid user cred hnd hs hu hus hcred hown hv hi
    exact ⟨h.1, h.2, fun credentialId2 verification2 now2 =>
      WebAuthnRoutes.verifyAuthenticationHandler_no_session _ _ _ _ _ h.2⟩
  · intro st sessionId v info tr newCredId now session uid user
      hnd hs hu hus hv hi
    have h := WebAuthnRoutes.regCompletionConsumesSession st sessionId v info tr
      newCredId now session uid user hnd hs hu hus hv hi
    exact ⟨h.1, h.2, fun verification2 tr2 newCredId2 now2 =>
      WebAuthnRoutes.verifyRegistrationHandler_no_session _ _ _ _ _ _ h.2⟩

/-- Witness for C7: on `WAstate`, an authentication completion and a
registration completion each consume session `s1`, and replaying `s1` is
rejected with the invalid-session response. -/
theorem C7_sessions_single_use_witness :
    ((WebAuthnRoutes.verifyAuthenticationHandler WAstate "s1" "credA"
        (Except.ok ⟨true, some ⟨6⟩⟩) 10).1.status = 200 ∧
     SMap.get (WebAuthnRoutes.verifyAuthenticationHandler WAstate "s1" "credA"
        (Except.ok ⟨true, some ⟨6⟩⟩) 10).2.webAuthnSessions "s1" = none ∧
     WebAuthnRoutes.verifyAuthenticationHandler
         (WebAuthnRoutes.verifyAuthenticationHandler WAstate "s1" "credA"
           (Except.ok ⟨true, some ⟨6⟩⟩) 10).2 "s1" "credA"
         (Except.ok ⟨true, some ⟨6⟩⟩) 20 =
       (mkResp 400 "Invalid Session" "Authentication session not found or expired",
        (WebAuthnRoutes.verifyAuthenticationHandler WAstate "s1" "credA"
          (Except.ok ⟨true, some ⟨6⟩⟩) 10).2)) ∧
    ((WebAuthnRoutes.verifyRegistrationHandler WAstate "s1"
        (Except.ok ⟨true, some ⟨"credB", "pk2", 0⟩⟩) [] "c2" 10).1.status = 200 ∧
     SMap.get (WebAuthnRoutes.verifyRegistrationHandler WAstate "s1"
        (Except.ok ⟨true, some ⟨"credB", "pk2", 0⟩⟩) [] "c2" 10).2.webAuthnSessions
        "s1" = none ∧
     WebAuthnRoutes.verifyRegistrationHandler
         (WebAuthnRoutes.verifyRegistrationHandler WAstate "s1"
           (Except.ok ⟨true, some ⟨"credB", "pk2", 0⟩⟩) [] "c2" 10).2 "s1"
         (Except.ok ⟨true, some ⟨"credB", "pk2", 0⟩⟩) [] "c3" 30 =
       (mkResp 400 "Invalid Session" "Registration session not found or expired",
        (WebAuthnRoutes.verifyRegistrationHandler WAstate "s1"
          (Except.ok ⟨true, some ⟨"credB", "pk2", 0⟩⟩) [] "c2" 10).2)) := by
  have h1 := C7_sessions_single_use.1 WAstate "s1" "credA" ⟨true, some ⟨6⟩⟩ ⟨6⟩ 10
    WAsession "u1" WAuser WAcred (by decide) rfl rfl rfl rfl rfl rfl rfl
  have h2 := C7_sessions_single_use.2 WAstate "s1" ⟨true, some ⟨"credB", "pk2", 0⟩⟩
    ⟨"credB", "pk2", 0⟩ [] "c2" 10 WAsession "u1" WAuser (by decide) rfl rfl rfl rfl rfl
  exact ⟨⟨h1.1, h1.2.1, h1.2.2 "credA" (Except.ok ⟨true, some ⟨6⟩⟩) 20⟩,
         ⟨h2.1, h2.2.1, h2.2.2 (Except.ok ⟨true, some ⟨"credB", "pk2", 0⟩⟩) [] "c3" 30⟩⟩
